import Mathlib

/-!
# Verification of the session synchronization layer of `frappe_deep_agents`

Shallow embedding of the client-side session state store and socket client:

* `src/frontend/src/pages/AgentWorkspace.vue` (first variant): store refs
  (`session`, `messages`, `todos`, `files`, `toolCalls`, `isStreaming`,
  `agentStatus`), the eight socket event handlers registered by
  `subscribeToEvents`, `sendMessage`, `appendToken`, `finishStreaming`.
* `src/frontend/src/pages/AgentWorkspace.vue` (second variant): `updateTodo`.
* `src/frontend/src/components/TodoPanel.vue` (`src/unnamed/part_008`):
  `toggleTodo`.
* `src/frontend/src/socket.js`: the `SocketService` singleton
  (`connect`, `subscribe`, `unsubscribe`, `on`, `disconnect`) and the
  `reconnect` handler installed by `connect`.

JavaScript strings are Lean `String`s, `Date` timestamps are `Nat`s supplied
by an explicit clock parameter, and the mutable Vue refs become fields of an
explicit `Store` record threaded through pure transition functions.
-/

namespace DeepAgents

/-- A chat `Message`: `{ role, content, streaming?, timestamp? }`.
In the source the `streaming` field is absent on most messages; an absent
field is falsy in JavaScript, so it is embedded as `streaming = false`.
`timestamp` is absent (`none`) until some code stamps it. -/
structure Message where
  role : String
  content : String
  streaming : Bool
  timestamp : Option Nat
  deriving Repr, DecidableEq

/-- A `ToolCall` registry entry as pushed by the `tool_call_start` handler:
`{ id, tool_name, input, status, timestamp }`; `output` is absent (`none`)
until a `tool_call_complete` event records it. -/
structure ToolCall where
  id : String
  tool_name : String
  input : String
  status : String
  timestamp : Option Nat
  output : Option String
  deriving Repr, DecidableEq

/-- A `Todo` entry: `{ name, description, status }`. -/
structure Todo where
  name : String
  description : String
  status : String
  deriving Repr, DecidableEq

/-- A `FileRef` entry: `{ name, file_path, is_directory }`. -/
structure FileRef where
  name : String
  file_path : String
  is_directory : Bool
  deriving Repr, DecidableEq

/-- The session state store of `AgentWorkspace.vue`: the refs `session`
(only its `name` matters to the synchronization layer; `none` when no
session is loaded), `messages`, `todos`, `files`, `toolCalls`,
`isStreaming` and `agentStatus`. -/
structure Store where
  session : Option String
  messages : List Message
  todos : List Todo
  files : List FileRef
  toolCalls : List ToolCall
  isStreaming : Bool
  agentStatus : String
  deriving Repr, DecidableEq

/-- The eight inbound socket events handled by `subscribeToEvents`, one
variant per `socketService.on(...)` registration; every payload carries a
`session` field. -/
inductive Event where
  | agent_token (session : String) (token : String)
  | tool_call_start (session : String) (tool_name : String) (input : String)
  | tool_call_complete (session : String) (tool_name : String)
      (success : Bool) (output : String)
  | agent_status (session : String) (status : String)
  | todo_update (session : String) (todos : List Todo)
  | file_update (session : String) (files : List FileRef)
  | agent_complete (session : String)
  | agent_error (session : String) (error : String)
  deriving Repr, DecidableEq

/-- `Event.session`: the `session` field carried by every payload. -/
def Event.session : Event → String
  | .agent_token s _ => s
  | .tool_call_start s _ _ => s
  | .tool_call_complete s _ _ _ => s
  | .agent_status s _ => s
  | .todo_update s _ => s
  | .file_update s _ => s
  | .agent_complete s => s
  | .agent_error s _ => s

/-- `appendToken(token)` acting on the `messages` list:
```js
const lastMsg = messages.value[messages.value.length - 1]
if (lastMsg && lastMsg.streaming) { lastMsg.content += token }
```
the last message's content grows by the token exactly when that message
exists and its `streaming` flag is set; otherwise nothing changes. -/
def appendToken (token : String) : List Message → List Message
  | [] => []
  | [m] =>
      if m.streaming then [{ m with content := m.content ++ token }] else [m]
  | m :: ms => m :: appendToken token ms

/-- `finishStreaming()` acting on the `messages` list:
```js
const lastMsg = messages.value[messages.value.length - 1]
if (lastMsg) { lastMsg.streaming = false; lastMsg.timestamp = new Date() }
```
clears the last message's streaming flag and stamps its timestamp,
whether or not it was streaming. -/
def finishStreaming (now : Nat) : List Message → List Message
  | [] => []
  | [m] => [{ m with streaming := false, timestamp := some now }]
  | m :: ms => m :: finishStreaming now ms

/-- The `tool_call_complete` body acting on the `toolCalls` list:
```js
const tool = toolCalls.value.find(t => t.tool_name === data.tool_name && t.status === 'running')
if (tool) { tool.status = data.success ? 'success' : 'error'; tool.output = data.output }
```
`Array.find` returns the first match in registry order, so the first entry
whose name matches and whose status is `"running"` is updated in place and
everything else is untouched. -/
def completeToolCall (tool_name : String) (success : Bool) (output : String) :
    List ToolCall → List ToolCall
  | [] => []
  | t :: ts =>
      if t.tool_name = tool_name ∧ t.status = "running" then
        { t with status := if success then "success" else "error",
                 output := some output } :: ts
      else
        t :: completeToolCall tool_name success output ts

/-- One inbound event processed by the handlers `subscribeToEvents`
registers. Every handler opens with the guard
`if (data.session === session.value.name)`; embedded as
`store.session = some e.session` (when `session.value` is null the
JavaScript guard throws before any mutation, so the store is likewise
unchanged). `now` supplies `Date.now()` / `new Date()` for the
`tool_call_start` and `agent_complete` branches. -/
def processEvent (st : Store) (e : Event) (now : Nat) : Store :=
  if st.session = some e.session then
    match e with
    | .agent_token _ token =>
        { st with agentStatus := "streaming",
                  messages := appendToken token st.messages }
    | .tool_call_start _ tool_name input =>
        { st with agentStatus := "running",
                  toolCalls := st.toolCalls ++
                    [{ id := toString now, tool_name := tool_name,
                       input := input, status := "running",
                       timestamp := some now, output := none }] }
    | .tool_call_complete _ tool_name success output =>
        { st with toolCalls :=
            completeToolCall tool_name success output st.toolCalls }
    | .agent_status _ status =>
        { st with agentStatus := status }
    | .todo_update _ todos =>
        { st with todos := todos }
    | .file_update _ files =>
        { st with files := files }
    | .agent_complete _ =>
        { st with isStreaming := false, agentStatus := "completed",
                  messages := finishStreaming now st.messages }
    | .agent_error _ error =>
        { st with isStreaming := false, agentStatus := "error",
                  messages := st.messages ++
                    [{ role := "system", content := "Error: " ++ error,
                       streaming := false, timestamp := none }] }
  else
    st

/-- `content.trim()` from the `sendMessage` guard: JavaScript
`String.prototype.trim` strips whitespace from both ends, embedded over the
character list of the string. -/
def jsTrim (s : String) : String :=
  ⟨((s.data.dropWhile Char.isWhitespace).reverse.dropWhile
      Char.isWhitespace).reverse⟩

/-- `sendMessage(content)`. The guard
`if (!content.trim() || isStreaming.value || !session.value) return`
makes the call a no-op for blank content, an in-flight turn, or no loaded
session. Otherwise the user message and the streaming assistant placeholder
are pushed and `isStreaming` / `agentStatus` set, all synchronously before
the awaited `agentAPI.sendMessage` call; `fail = some msg` embeds that call
rejecting with `error.message = msg` (the catch block), `fail = none` its
success. The returned `Bool` records whether the external `send_message`
call was issued. -/
def sendMessage (st : Store) (content : String) (fail : Option String)
    (now : Nat) : Store × Bool :=
  if jsTrim content = "" ∨ st.isStreaming = true ∨ st.session = none then
    (st, false)
  else
    let st1 : Store :=
      { st with
          messages := st.messages ++
            [{ role := "user", content := content, streaming := false,
               timestamp := some now },
             { role := "assistant", content := "", streaming := true,
               timestamp := none }],
          isStreaming := true,
          agentStatus := "thinking" }
    match fail with
    | none => (st1, true)
    | some msg =>
        ({ st1 with
             isStreaming := false,
             agentStatus := "error",
             messages := st1.messages ++
               [{ role := "system", content := "Error: " ++ msg,
                  streaming := false, timestamp := none }] }, true)

/-- Concatenation of token fragments in delivery order (the reference value
the token-assembly property compares the store against). -/
def concatTokens : List String → String
  | [] => ""
  | t :: ts => t ++ concatTokens ts

/-- A sequence of inbound events processed in delivery order, the clock
ticking once per event. -/
def processEvents (st : Store) (es : List Event) (now : Nat) : Store :=
  match es with
  | [] => st
  | e :: rest => processEvents (processEvent st e now) rest (now + 1)

/-- One step of the store's lifetime: either a `sendMessage` call (with the
outcome of its awaited `send_message` API call) or an inbound event. -/
inductive Action where
  | send (content : String) (fail : Option String)
  | ev (e : Event)
  deriving Repr, DecidableEq

/-- Apply one `Action` to the store. -/
def stepAction (st : Store) (a : Action) (now : Nat) : Store :=
  match a with
  | .send content fail => (sendMessage st content fail now).1
  | .ev e => processEvent st e now

/-- An interleaving of `sendMessage` calls and inbound events applied in
order. -/
def runActions (st : Store) (acts : List Action) (now : Nat) : Store :=
  match acts with
  | [] => st
  | a :: rest => runActions (stepAction st a now) rest (now + 1)

/-- Number of messages in the transcript whose `streaming` flag is set. -/
def countStreaming (msgs : List Message) : Nat :=
  (msgs.filter (fun m => m.streaming)).length

/-!
## The socket client (`src/frontend/src/socket.js`)

`SocketService` keeps `this.socket` (modelled by whether it exists and the
`socket.on` registrations living on it), `this.connected`, and the
`this.eventHandlers` bookkeeping `Map` (only its key set matters: the source
never stores a value under any key). Client→server traffic is recorded as a
list of `Intent`s (`socket.emit(event, payload)`). Handlers registered
through `SocketService.on` are identified by a caller-chosen `Nat` id. -/

/-- A client→server `socket.emit(event, payload)`. -/
inductive Intent where
  | emit (event : String) (payload : String)
  deriving Repr, DecidableEq

/-- The socket client's state. `registrations` are the `socket.on` handler
registrations living on the current socket object (empty when no socket
exists); `eventHandlers` is the key set of the bookkeeping `Map`. -/
structure SocketService where
  socketExists : Bool
  connected : Bool
  eventHandlers : List String
  registrations : List (String × Nat)
  deriving Repr, DecidableEq

namespace SocketService

/-- `connect()`:
`if (this.socket && this.connected) return this.socket` — otherwise a fresh
`io(...)` socket is created (discarding any registrations on a previous
socket object) and the internal lifecycle handlers are installed on it;
`this.connected` is not written until the socket's `connect` event fires. -/
def connect (s : SocketService) : SocketService :=
  if s.socketExists ∧ s.connected then s
  else { s with socketExists := true, registrations := [] }

/-- The `connect` lifecycle handler installed by `connect()`:
sets `this.connected = true`. -/
def onConnect (s : SocketService) : SocketService :=
  { s with connected := true }

/-- The `disconnect` lifecycle handler installed by `connect()`:
sets `this.connected = false`. -/
def onDisconnect (s : SocketService) : SocketService :=
  { s with connected := false }

/-- The `reconnect` lifecycle handler installed by `connect()`:
```js
this.socket.on('reconnect', (attemptNumber) => {
  console.log('Socket.IO reconnected after', attemptNumber, 'attempts')
})
```
its body only logs: it mutates nothing and emits nothing, so a reconnect
issues no intents (in particular no re-subscription). -/
def onReconnect (s : SocketService) (_attemptNumber : Nat) :
    SocketService × List Intent :=
  (s, [])

/-- `subscribe(channel)`:
`if (!this.socket) this.connect(); this.socket.emit('subscribe', channel)` —
unconditionally emits one subscribe intent; there is no bookkeeping of a
current subscription and no no-op path. -/
def subscribe (s : SocketService) (channel : String) :
    SocketService × List Intent :=
  let s1 := if s.socketExists then s else s.connect
  (s1, [Intent.emit "subscribe" channel])

/-- `unsubscribe(channel)`:
`if (!this.socket) return; this.socket.emit('unsubscribe', channel);
this.eventHandlers.delete(channel)` — emits the unsubscribe intent and
deletes the channel's key from the bookkeeping map; it never touches the
`socket.on` registrations. -/
def unsubscribe (s : SocketService) (channel : String) :
    SocketService × List Intent :=
  if s.socketExists then
    ({ s with eventHandlers := s.eventHandlers.erase channel },
     [Intent.emit "unsubscribe" channel])
  else (s, [])

/-- `on(event, callback)` (named `onEvent` here because `on` is a reserved
word in Lean):
`if (!this.socket) this.connect(); this.socket.on(event, callback)` —
registers the handler on the socket; the `eventHandlers` map is never
written. -/
def onEvent (s : SocketService) (event : String) (hid : Nat) : SocketService :=
  let s1 := if s.socketExists then s else s.connect
  { s1 with registrations := s1.registrations ++ [(event, hid)] }

/-- `disconnect()`: tears the socket down (`this.socket = null`, dropping
its registrations), resets `connected` and clears the bookkeeping map. -/
def disconnect (s : SocketService) : SocketService :=
  if s.socketExists then
    { socketExists := false, connected := false, eventHandlers := [],
      registrations := [] }
  else s

end SocketService

/-- The socket operations performed by `subscribeToEvents()` in
`AgentWorkspace.vue`: one `subscribe` on `"agent_session_" + session.name`
followed by the eight `socketService.on(...)` handler registrations, with
ids `base .. base + 7`. -/
def subscribeToEventsOps (s : SocketService) (sessionName : String)
    (base : Nat) : SocketService × List Intent :=
  let r := s.subscribe ("agent_session_" ++ sessionName)
  let s1 := r.1.onEvent "agent_token" base
  let s2 := s1.onEvent "tool_call_start" (base + 1)
  let s3 := s2.onEvent "tool_call_complete" (base + 2)
  let s4 := s3.onEvent "agent_status" (base + 3)
  let s5 := s4.onEvent "todo_update" (base + 4)
  let s6 := s5.onEvent "file_update" (base + 5)
  let s7 := s6.onEvent "agent_complete" (base + 6)
  let s8 := s7.onEvent "agent_error" (base + 7)
  (s8, r.2)

/-- The socket operations performed by `handleSelectSession(sessionId)`:
`unsubscribe` the old session's channel, then (after clearing the store and
loading the new session) `subscribeToEvents()` for the new one. No `off` or
`removeAllListeners` call occurs anywhere in this flow. -/
def handleSelectSessionOps (s : SocketService) (oldSession newSession : String)
    (base : Nat) : SocketService × List Intent :=
  let r1 := s.unsubscribe ("agent_session_" ++ oldSession)
  let r2 := subscribeToEventsOps r1.1 newSession base
  (r2.1, r1.2 ++ r2.2)

/-!
## The todo toggle (`TodoPanel.vue` + the second `AgentWorkspace.vue`
variant's `updateTodo`)
-/

/-- `toggleTodo(todo)` in `TodoPanel.vue`:
`const newStatus = todo.status === 'completed' ? 'pending' : 'completed'` —
the status the panel asks the workspace to set. -/
def toggleTodoStatus (todo : Todo) : String :=
  if todo.status = "completed" then "pending" else "completed"

/-- The store's todo list at the suspension point inside
`updateTodo(todoName, status)` (second `AgentWorkspace.vue` variant), while
`await agentAPI.updateTodo(todoName, status)` is still pending: the body
performs no mutation before the await, so the list is unchanged. -/
def updateTodoPending (todos : List Todo) (_todoName _status : String) :
    List Todo :=
  todos

/-- `const todo = todos.value.find(t => t.name === todoName);
if (todo) todo.status = status` — sets the status of the first todo whose
name matches. -/
def setTodoStatus (todoName status : String) : List Todo → List Todo
  | [] => []
  | t :: ts =>
      if t.name = todoName then { t with status := status } :: ts
      else t :: setTodoStatus todoName status ts

/-- The continuation of `updateTodo(todoName, status)` once the awaited
external call resolves: on success the local status is set; the catch block
only logs, leaving the list untouched. -/
def updateTodoResolved (todos : List Todo) (todoName status : String)
    (ok : Bool) : List Todo :=
  if ok then setTodoStatus todoName status todos else todos

/-!
## Helper lemmas
-/

theorem appendToken_last_streaming (t : String) (init : List Message)
    (last : Message) (h : last.streaming = true) :
    appendToken t (init ++ [last]) =
      init ++ [{ last with content := last.content ++ t }] := by
  induction init with
  | nil => simp [appendToken, h]
  | cons m rest ih =>
      cases rest with
      | nil => simp [appendToken, h]
      | cons m2 rest2 => simpa [appendToken] using ih

theorem appendToken_no_streaming_last (t : String) (msgs : List Message)
    (h : ∀ m, msgs.getLast? = some m → m.streaming = false) :
    appendToken t msgs = msgs := by
  induction msgs with
  | nil => rfl
  | cons m rest ih =>
      cases rest with
      | nil =>
          have hm : m.streaming = false := h m rfl
          simp [appendToken, hm]
      | cons m2 rest2 =>
          have : ∀ x, (m2 :: rest2).getLast? = some x → x.streaming = false := by
            intro x hx
            exact h x (by simpa [List.getLast?] using hx)
          simpa [appendToken] using ih this

theorem processEvent_session (st : Store) (e : Event) (now : Nat) :
    (processEvent st e now).session = st.session := by
  unfold processEvent
  split
  · cases e <;> rfl
  · rfl

theorem processEvent_agent_token_messages (st : Store) (sid t : String)
    (now : Nat) (hs : st.session = some sid) :
    (processEvent st (Event.agent_token sid t) now).messages =
      appendToken t st.messages := by
  unfold processEvent
  rw [if_pos (by simpa [Event.session] using hs)]

theorem processEvents_tokens_messages (sid : String) (toks : List String) :
    ∀ (st : Store) (now : Nat), st.session = some sid →
      (processEvents st (toks.map (Event.agent_token sid)) now).messages =
        toks.foldl (fun msgs t => appendToken t msgs) st.messages := by
  induction toks with
  | nil => intro st now _; rfl
  | cons t ts ih =>
      intro st now hs
      have hsession :
          (processEvent st (Event.agent_token sid t) now).session = some sid := by
        rw [processEvent_session]; exact hs
      simp only [List.map_cons, processEvents, List.foldl_cons]
      rw [ih _ (now + 1) hsession,
        processEvent_agent_token_messages st sid t now hs]

theorem foldl_appendToken_streaming (toks : List String)
    (init : List Message) :
    ∀ last : Message, last.streaming = true →
      toks.foldl (fun msgs t => appendToken t msgs) (init ++ [last]) =
        init ++ [{ last with content := last.content ++ concatTokens toks }] := by
  induction toks with
  | nil =>
      intro last _
      simp [concatTokens, String.append_empty]
  | cons t ts ih =>
      intro last hlast
      rw [List.foldl_cons, appendToken_last_streaming t init last hlast,
        ih { last with content := last.content ++ t } hlast]
      simp [concatTokens, String.append_assoc]

theorem foldl_appendToken_no_streaming_last (toks : List String)
    (msgs : List Message)
    (h : ∀ m, msgs.getLast? = some m → m.streaming = false) :
    toks.foldl (fun l t => appendToken t l) msgs = msgs := by
  induction toks with
  | nil => rfl
  | cons t ts ih =>
      rw [List.foldl_cons, appendToken_no_streaming_last t msgs h]
      exact ih

/-!
## Claim theorems
-/

/-- C1: for a sequence of `agent_token` events addressed to the active
session, if the last message in the transcript is streaming, its content
after processing equals its prior content followed by the fragments
concatenated in delivery order; if the last message is not streaming (or
there is no message), every fragment is dropped and the transcript is
unchanged. -/
theorem agent_token_assembly (st : Store) (sid : String) (toks : List String)
    (now : Nat) (hs : st.session = some sid) :
    (∀ init last, st.messages = init ++ [last] → last.streaming = true →
        (processEvents st (toks.map (Event.agent_token sid)) now).messages =
          init ++ [{ last with content := last.content ++ concatTokens toks }])
    ∧ ((∀ m, st.messages.getLast? = some m → m.streaming = false) →
        (processEvents st (toks.map (Event.agent_token sid)) now).messages =
          st.messages) := by
  constructor
  · intro init last hmsgs hlast
    rw [processEvents_tokens_messages sid toks st now hs, hmsgs]
    exact foldl_appendToken_streaming toks init last hlast
  · intro h
    rw [processEvents_tokens_messages sid toks st now hs]
    exact foldl_appendToken_no_streaming_last toks st.messages h

/-- Witness for C1 (Scenario A): from a transcript holding the user message
`"hi"` and the empty streaming assistant placeholder, the tokens
`"He","llo","!"` assemble to `"Hello!"`. -/
theorem agent_token_assembly_witness :
    (processEvents
      { session := some "S1",
        messages := [{ role := "user", content := "hi", streaming := false,
                       timestamp := some 0 },
                     { role := "assistant", content := "", streaming := true,
                       timestamp := none }],
        todos := [], files := [], toolCalls := [], isStreaming := true,
        agentStatus := "thinking" }
      (["He", "llo", "!"].map (Event.agent_token "S1")) 1).messages =
      [{ role := "user", content := "hi", streaming := false,
         timestamp := some 0 },
       { role := "assistant", content := "Hello!", streaming := true,
         timestamp := none }] := by
  have h := (agent_token_assembly
    { session := some "S1",
      messages := [{ role := "user", content := "hi", streaming := false,
                     timestamp := some 0 },
                   { role := "assistant", content := "", streaming := true,
                     timestamp := none }],
      todos := [], files := [], toolCalls := [], isStreaming := true,
      agentStatus := "thinking" }
    "S1" ["He", "llo", "!"] 1 rfl).1
    [{ role := "user", content := "hi", streaming := false,
       timestamp := some 0 }]
    { role := "assistant", content := "", streaming := true,
      timestamp := none } rfl rfl
  exact h.trans (by decide)

/-- C3: any inbound event whose `session` field differs from the active
session id leaves the whole store (messages, toolCalls, todos, files,
agentStatus, isStreaming) unchanged. -/
theorem foreign_session_event_noop (st : Store) (e : Event) (sid : String)
    (now : Nat) (hs : st.session = some sid) (hne : e.session ≠ sid) :
    processEvent st e now = st := by
  have hguard : ¬ (st.session = some e.session) := by
    rw [hs]
    intro hcontra
    exact hne (Option.some.inj hcontra).symm
  unfold processEvent
  rw [if_neg hguard]

/-- Witness for C3 (Scenario C): an `agent_token` event for session `"S2"`
while `"S1"` is active leaves the store unchanged. -/
theorem foreign_session_event_noop_witness :
    processEvent
      { session := some "S1",
        messages := [{ role := "assistant", content := "x",
                       streaming := true, timestamp := none }],
        todos := [], files := [], toolCalls := [], isStreaming := true,
        agentStatus := "streaming" }
      (Event.agent_token "S2" "tok") 7 =
      { session := some "S1",
        messages := [{ role := "assistant", content := "x",
                       streaming := true, timestamp := none }],
        todos := [], files := [], toolCalls := [], isStreaming := true,
        agentStatus := "streaming" } :=
  foreign_session_event_noop _ (Event.agent_token "S2" "tok") "S1" 7 rfl
    (by decide)

/-- C10: `sendMessage(content)` is a no-op — store unchanged and no
external `send_message` call issued — when the content trims to empty, a
streaming turn is in progress, or no session is loaded. -/
theorem sendMessage_guard_noop (st : Store) (content : String)
    (fail : Option String) (now : Nat)
    (h : jsTrim content = "" ∨ st.isStreaming = true ∨ st.session = none) :
    sendMessage st content fail now = (st, false) := by
  unfold sendMessage
  rw [if_pos h]

/-- Witness for C10: whitespace-only content is rejected even with a live
idle session. -/
theorem sendMessage_guard_noop_witness :
    sendMessage
      { session := some "S1", messages := [], todos := [], files := [],
        toolCalls := [], isStreaming := false, agentStatus := "idle" }
      "   " (some "boom") 4 =
      ({ session := some "S1", messages := [], todos := [], files := [],
         toolCalls := [], isStreaming := false, agentStatus := "idle" },
       false) :=
  sendMessage_guard_noop _ "   " (some "boom") 4 (Or.inl (by decide))

theorem completeToolCall_no_match (n : String) (succ : Bool) (out : String)
    (l : List ToolCall)
    (h : ∀ t ∈ l, ¬ (t.tool_name = n ∧ t.status = "running")) :
    completeToolCall n succ out l = l := by
  induction l with
  | nil => rfl
  | cons t ts ih =>
      have ht : ¬ (t.tool_name = n ∧ t.status = "running") :=
        h t (List.mem_cons_self t ts)
      rw [completeToolCall, if_neg ht,
        ih (fun u hu => h u (List.mem_cons_of_mem t hu))]

theorem completeToolCall_first_match (n : String) (succ : Bool) (out : String)
    (l1 : List ToolCall) (t : ToolCall) (l2 : List ToolCall)
    (h1 : ∀ u ∈ l1, ¬ (u.tool_name = n ∧ u.status = "running"))
    (h2 : t.tool_name = n) (h3 : t.status = "running") :
    completeToolCall n succ out (l1 ++ t :: l2) =
      l1 ++ { t with status := if succ then "success" else "error",
                     output := some out } :: l2 := by
  induction l1 with
  | nil => simp [completeToolCall, h2, h3]
  | cons u l1tl ih =>
      have hu : ¬ (u.tool_name = n ∧ u.status = "running") :=
        h1 u (List.mem_cons_self u l1tl)
      simp only [List.cons_append, completeToolCall, if_neg hu]
      exact congrArg (List.cons u) (ih (fun v hv => h1 v (List.mem_cons_of_mem u hv)))

theorem setTodoStatus_first_match (todoName status : String)
    (l1 : List Todo) (t : Todo) (l2 : List Todo)
    (h1 : ∀ u ∈ l1, u.name ≠ todoName) (h2 : t.name = todoName) :
    setTodoStatus todoName status (l1 ++ t :: l2) =
      l1 ++ { t with status := status } :: l2 := by
  induction l1 with
  | nil => simp [setTodoStatus, h2]
  | cons u l1tl ih =>
      have hu : u.name ≠ todoName := h1 u (List.mem_cons_self u l1tl)
      simp only [List.cons_append, setTodoStatus, if_neg hu]
      exact congrArg (List.cons u) (ih (fun v hv => h1 v (List.mem_cons_of_mem u hv)))

/-- C2 fails on the code: the interleaving `sendMessage "hi"` (send call
succeeds), `agent_error` for the active session, `sendMessage "next"`
leaves two messages with `streaming = true` in the transcript, because the
`agent_error` handler (like the `sendMessage` catch block) resets
`isStreaming` without clearing the placeholder's `streaming` flag. -/
theorem error_path_two_streaming_messages :
    countStreaming (runActions
      { session := some "S1", messages := [], todos := [], files := [],
        toolCalls := [], isStreaming := false, agentStatus := "idle" }
      [Action.send "hi" none,
       Action.ev (Event.agent_error "S1" "boom"),
       Action.send "next" none] 0).messages = 2 := by decide

/-- C4 fails on the code: processing `agent_error {error:"boom"}` for the
active session sets `agentStatus = "error"`, resets `isStreaming`, and
appends the system message `"Error: boom"`, but the in-progress assistant
message keeps `streaming = true` — the handler never calls
`finishStreaming`. -/
theorem agent_error_does_not_finalize :
    (processEvent
      { session := some "S1",
        messages := [{ role := "user", content := "hi", streaming := false,
                       timestamp := some 0 },
                     { role := "assistant", content := "part",
                       streaming := true, timestamp := none }],
        todos := [], files := [], toolCalls := [], isStreaming := true,
        agentStatus := "streaming" }
      (Event.agent_error "S1" "boom") 5) =
      { session := some "S1",
        messages := [{ role := "user", content := "hi", streaming := false,
                       timestamp := some 0 },
                     { role := "assistant", content := "part",
                       streaming := true, timestamp := none },
                     { role := "system", content := "Error: boom",
                       streaming := false, timestamp := none }],
        todos := [], files := [], toolCalls := [], isStreaming := false,
        agentStatus := "error" } := by decide

/-- C5 fails on the code: the `reconnect` handler installed by `connect()`
only logs, so after a reconnect while session `"S1"` is active zero
subscribe intents are issued (the claim demands exactly one on
`"agent_session_S1"`); re-subscription happens only from
`subscribeToEvents`, which no reconnect path calls. -/
theorem reconnect_issues_no_subscribe :
    ((SocketService.onReconnect
        { socketExists := true, connected := true, eventHandlers := [],
          registrations := [("agent_token", 0), ("agent_error", 7)] } 3).2.filter
      (fun i => i = Intent.emit "subscribe" "agent_session_S1")) = [] ∧
    (SocketService.onReconnect
        { socketExists := true, connected := true, eventHandlers := [],
          registrations := [("agent_token", 0), ("agent_error", 7)] } 3).1 =
      { socketExists := true, connected := true, eventHandlers := [],
        registrations := [("agent_token", 0), ("agent_error", 7)] } := by
  decide

/-- C6 as stated is false: two consecutive `subscribe` calls for the
already-subscribed channel `"agent_session_x"` issue two subscribe intents,
not one — `subscribe(channel)` emits unconditionally and keeps no record of
a current subscription. -/
theorem enterSession_idempotence_counterexample :
    ¬ ((((SocketService.mk true true [] []).subscribe
          ("agent_session_" ++ "x")).2 ++
        (((SocketService.mk true true [] []).subscribe
          ("agent_session_" ++ "x")).1.subscribe
          ("agent_session_" ++ "x")).2).filter
        (fun i => i = Intent.emit "subscribe" "agent_session_x")).length = 1 := by
  decide

/-- C6 amended: `subscribe` (the code realizing `enterSession`) issues
exactly one subscribe intent on `"agent_session_" + x` per call, so calling
it twice in a row for the same session issues two subscribe intents in
total; the second call is not a no-op. -/
theorem subscribe_emits_one_intent_per_call (s : SocketService)
    (sessionId : String) :
    (s.subscribe ("agent_session_" ++ sessionId)).2 =
      [Intent.emit "subscribe" ("agent_session_" ++ sessionId)]
    ∧ ((s.subscribe ("agent_session_" ++ sessionId)).1.subscribe
        ("agent_session_" ++ sessionId)).2 =
      [Intent.emit "subscribe" ("agent_session_" ++ sessionId)] :=
  ⟨rfl, rfl⟩

/-- C7: a `tool_call_complete` event addressed to the active session
updates the first registry entry whose tool name matches and whose status
is `"running"` — its status becomes `"success"` when the event's success
flag is set and `"error"` otherwise, with the event's output payload
recorded — leaving every other entry and every other store field unchanged;
with no running match the whole store is unchanged. -/
theorem tool_call_complete_first_running (st : Store) (sid n out : String)
    (succ : Bool) (now : Nat) (hs : st.session = some sid) :
    ((∀ t ∈ st.toolCalls, ¬ (t.tool_name = n ∧ t.status = "running")) →
        processEvent st (Event.tool_call_complete sid n succ out) now = st)
    ∧ (∀ l1 t l2, st.toolCalls = l1 ++ t :: l2 →
        (∀ u ∈ l1, ¬ (u.tool_name = n ∧ u.status = "running")) →
        t.tool_name = n → t.status = "running" →
        processEvent st (Event.tool_call_complete sid n succ out) now =
          { st with toolCalls :=
              l1 ++ { t with status := if succ then "success" else "error",
                             output := some out } :: l2 }) := by
  have hguard : st.session = some (Event.tool_call_complete sid n succ out).session := by
    simpa [Event.session] using hs
  have hred : processEvent st (Event.tool_call_complete sid n succ out) now =
      { st with toolCalls := completeToolCall n succ out st.toolCalls } := by
    unfold processEvent
    rw [if_pos hguard]
  constructor
  · intro hnone
    rw [hred, completeToolCall_no_match n succ out st.toolCalls hnone]
  · intro l1 t l2 hsplit h1 h2 h3
    rw [hred, hsplit,
      completeToolCall_first_match n succ out l1 t l2 h1 h2 h3]

/-- Witness for C7 (Scenario B): a running `bash` tool call completed with
`success:true, output:"ok"` becomes status `"success"`, output `"ok"`. -/
theorem tool_call_complete_first_running_witness :
    processEvent
      { session := some "S1", messages := [], todos := [], files := [],
        toolCalls := [{ id := "1", tool_name := "bash", input := "ls",
                        status := "running", timestamp := some 1,
                        output := none }],
        isStreaming := true, agentStatus := "running" }
      (Event.tool_call_complete "S1" "bash" true "ok") 2 =
      { session := some "S1", messages := [], todos := [], files := [],
        toolCalls := [{ id := "1", tool_name := "bash", input := "ls",
                        status := "success", timestamp := some 1,
                        output := some "ok" }],
        isStreaming := true, agentStatus := "running" } := by
  have h := (tool_call_complete_first_running
    { session := some "S1", messages := [], todos := [], files := [],
      toolCalls := [{ id := "1", tool_name := "bash", input := "ls",
                      status := "running", timestamp := some 1,
                      output := none }],
      isStreaming := true, agentStatus := "running" }
    "S1" "bash" "ok" true 2 rfl).2
    [] { id := "1", tool_name := "bash", input := "ls",
         status := "running", timestamp := some 1, output := none } []
    rfl (by simp) rfl rfl
  exact h.trans (by decide)

/-- C8 as stated is false: a toggle of the pending todo `"t1"` (requested
new status `"completed"`) leaves the store's status `"pending"` both while
the external `update_todo` call is pending and after it fails — the local
mutation happens only after the awaited call succeeds, so nothing is
flipped immediately and nothing is kept on failure. -/
theorem todo_toggle_counterexample :
    ¬ (updateTodoPending [{ name := "t1", description := "task", status := "pending" }]
        "t1" (toggleTodoStatus { name := "t1", description := "task", status := "pending" }) =
        [{ name := "t1", description := "task", status := "completed" }]
      ∧ updateTodoResolved [{ name := "t1", description := "task", status := "pending" }]
        "t1" (toggleTodoStatus { name := "t1", description := "task", status := "pending" })
        false =
        [{ name := "t1", description := "task", status := "completed" }]) := by
  decide

/-- C8 amended: the toggled status reaches the store only after the
external `update_todo` call resolves successfully — while the call is
pending the todo list is unchanged, on failure it stays unchanged (there is
nothing to roll back), and on success the first todo with the given name
gets the new status. -/
theorem updateTodo_applies_only_on_success (todos : List Todo)
    (todoName status : String) :
    updateTodoPending todos todoName status = todos
    ∧ updateTodoResolved todos todoName status false = todos
    ∧ (∀ l1 t l2, todos = l1 ++ t :: l2 →
        (∀ u ∈ l1, u.name ≠ todoName) → t.name = todoName →
        updateTodoResolved todos todoName status true =
          l1 ++ { t with status := status } :: l2) := by
  refine ⟨rfl, rfl, ?_⟩
  intro l1 t l2 hsplit h1 h2
  unfold updateTodoResolved
  rw [if_pos rfl, hsplit, setTodoStatus_first_match todoName status l1 t l2 h1 h2]

/-- Witness for C8's amended claim: toggling the pending todo `"t1"` to
`"completed"` with a succeeding external call updates exactly that todo. -/
theorem updateTodo_applies_only_on_success_witness :
    updateTodoResolved [{ name := "t1", description := "task", status := "pending" }]
      "t1" "completed" true =
      [{ name := "t1", description := "task", status := "completed" }] := by
  have h := (updateTodo_applies_only_on_success
    [{ name := "t1", description := "task", status := "pending" }]
    "t1" "completed").2.2
    [] { name := "t1", description := "task", status := "pending" } []
    rfl (by simp) rfl
  exact h.trans (by decide)

/-- C9: `unsubscribe(channel)` removes no handler registered through
`on()` — `on()` never writes the `eventHandlers` bookkeeping map that
`unsubscribe` deletes from, and `unsubscribe` never touches the socket's
handler registrations — so after a session switch
(`handleSelectSession`: unsubscribe the old channel, subscribe the new one,
register the eight handlers) every previously registered handler is still
registered; only `disconnect()` drops them in bulk. -/
theorem unsubscribe_removes_no_handlers (s : SocketService)
    (ev ch oldSession newSession : String) (hid base : Nat) :
    (s.onEvent ev hid).eventHandlers = s.eventHandlers
    ∧ (s.unsubscribe ch).1.registrations = s.registrations
    ∧ (s.socketExists = true →
        (handleSelectSessionOps s oldSession newSession base).1.registrations =
          s.registrations ++
            [("agent_token", base), ("tool_call_start", base + 1),
             ("tool_call_complete", base + 2), ("agent_status", base + 3),
             ("todo_update", base + 4), ("file_update", base + 5),
             ("agent_complete", base + 6), ("agent_error", base + 7)]) := by
  obtain ⟨se, c, eh, reg⟩ := s
  refine ⟨?_, ?_, ?_⟩
  · simp [SocketService.onEvent, SocketService.connect]
    cases se <;> cases c <;> simp
  · simp [SocketService.unsubscribe]
    cases se <;> simp
  · intro hse
    simp only at hse
    subst hse
    simp [handleSelectSessionOps, subscribeToEventsOps,
      SocketService.unsubscribe, SocketService.subscribe,
      SocketService.onEvent, List.append_assoc]

/-- Witness for C9: after a switch from session `"a"` to `"b"`, the
handler registered for the previous session is still present. -/
theorem unsubscribe_removes_no_handlers_witness :
    (handleSelectSessionOps
      { socketExists := true, connected := true,
        eventHandlers := ["agent_session_a"],
        registrations := [("agent_token", 0)] } "a" "b" 1).1.registrations =
      [("agent_token", 0)] ++
        [("agent_token", 1), ("tool_call_start", 1 + 1),
         ("tool_call_complete", 1 + 2), ("agent_status", 1 + 3),
         ("todo_update", 1 + 4), ("file_update", 1 + 5),
         ("agent_complete", 1 + 6), ("agent_error", 1 + 7)] :=
  (unsubscribe_removes_no_handlers
    { socketExists := true, connected := true,
      eventHandlers := ["agent_session_a"],
      registrations := [("agent_token", 0)] }
    "x" "y" "a" "b" 9 1).2.2 rfl

end DeepAgents
